import Mathlib

/-!
Verification of the coalescing, single-flight dispatcher of
`src/Filewatcherd-Go/src/codewind/clistate.go`.

The Go file defines a per-project `CLIState` actor: producers call
`OnFileChangeEvent`, which sends a `CLIStateChannelEntry` into a channel;
a single goroutine (`readChannel`) reads the channel in a loop, mutating
the loop-local state `processWaiting`, `processActive`, `lastTimestamp`
and `debugMostRecentPtw`, and spawning `runProjectCommand` worker
goroutines, each of which posts exactly one completion entry back.

The embedding below models one iteration of the `readChannel` loop as a
pure step function on an explicit state record, traces of channel entries
as lists, and `runProjectCommand`'s result posting (lines 229-267) as a
pure function of the process outcome.
-/

/-- Shallow model of `models.ProjectToWatch` (the watch-configuration
snapshot). The dispatcher only stores and forwards the pointer, so the
fields used by the test-mode argument builder suffice. -/
structure ProjectToWatch where
  refPaths : List String
  ignoredFilenames : List String
  ignoredPaths : List String
deriving DecidableEq

/-- `RunProjectReturn` (clistate.go lines 271-275): the return value of
`runProjectCommand`. -/
structure RunProjectReturn where
  errorCode : Int
  output : String
  spawnTime : Int
deriving DecidableEq

/-- `CLIStateChannelEntry` (clistate.go lines 140-144): `runProjectReturn`
is `some` for a completion message and `none` for a new file change. -/
structure CLIStateChannelEntry where
  projectCreationTimeInAbsoluteMsecsParam : Int
  runProjectReturn : Option RunProjectReturn
  debugPtw : Option ProjectToWatch
deriving DecidableEq

/-- The loop-local mutable state of `readChannel`
(clistate.go lines 89-94). -/
structure DispatcherState where
  processWaiting : Bool
  processActive : Bool
  lastTimestamp : Int
  debugMostRecentPtw : Option ProjectToWatch
deriving DecidableEq

/-- The state at entry of the `readChannel` loop
(clistate.go lines 89-94): both flags false, timestamp 0, no snapshot. -/
def initState : DispatcherState :=
  { processWaiting := false, processActive := false
    lastTimestamp := 0, debugMostRecentPtw := none }

/-- The arguments of one `go state.runProjectCommand(...)` spawn
(clistate.go line 133). -/
structure Invocation where
  timestamp : Int
  debugPtw : Option ProjectToWatch
deriving DecidableEq

/-- Message handling of one `readChannel` iteration
(clistate.go lines 100-127): a completion clears `processActive` and, on
`errorCode == 0`, sets `lastTimestamp` to the completion's `spawnTime`; a
change event bootstraps `lastTimestamp` when it is 0 and the event carries
a nonzero timestamp, records a non-nil snapshot, and sets
`processWaiting`. -/
def handleMessage (s : DispatcherState) (e : CLIStateChannelEntry) : DispatcherState :=
  match e.runProjectReturn with
  | some rpr =>
    { s with
      processActive := false
      lastTimestamp := if rpr.errorCode = 0 then rpr.spawnTime else s.lastTimestamp }
  | none =>
    { s with
      lastTimestamp :=
        if e.projectCreationTimeInAbsoluteMsecsParam ≠ 0 ∧ s.lastTimestamp = 0 then
          e.projectCreationTimeInAbsoluteMsecsParam
        else s.lastTimestamp
      debugMostRecentPtw :=
        match e.debugPtw with
        | some p => some p
        | none => s.debugMostRecentPtw
      processWaiting := true }

/-- Start clause of one `readChannel` iteration (clistate.go lines
129-134): when no process is active and one is waiting, clear the waiting
flag, set the active flag, and spawn `runProjectCommand` with the current
`lastTimestamp` and `debugMostRecentPtw`. -/
def maybeStart (s : DispatcherState) : DispatcherState × Option Invocation :=
  if !s.processActive && s.processWaiting then
    ({ s with processWaiting := false, processActive := true },
      some { timestamp := s.lastTimestamp, debugPtw := s.debugMostRecentPtw })
  else
    (s, none)

/-- One full iteration of the `readChannel` loop (clistate.go lines
96-135): handle the received entry, then maybe start an invocation. -/
def readChannelStep (s : DispatcherState) (e : CLIStateChannelEntry) :
    DispatcherState × Option Invocation :=
  maybeStart (handleMessage s e)

/-- State after the `readChannel` loop has processed a list of entries. -/
def stepsFrom (s : DispatcherState) : List CLIStateChannelEntry → DispatcherState
  | [] => s
  | e :: rest => stepsFrom (readChannelStep s e).1 rest

/-- Run the loop over a list of entries, collecting the invocations it
spawns, in order. -/
def runCollect (s : DispatcherState) :
    List CLIStateChannelEntry → DispatcherState × List Invocation
  | [] => (s, [])
  | e :: rest =>
    let inv := (readChannelStep s e).2
    let tail := runCollect (readChannelStep s e).1 rest
    (tail.1, inv.toList ++ tail.2)

/-- 1 when the step on entry `e` from state `s` spawns an invocation,
else 0. -/
def startedInStep (s : DispatcherState) (e : CLIStateChannelEntry) : Nat :=
  if (readChannelStep s e).2.isSome then 1 else 0

/-- 1 when entry `e` is a completion message, else 0. -/
def completedInStep (e : CLIStateChannelEntry) : Nat :=
  if e.runProjectReturn.isSome then 1 else 0

/-- Number of invocations in flight after the loop, starting from state
`s` with `n` in flight, processes a list of entries: each spawned
invocation adds one, each completion message removes one. -/
def inflightAfter (s : DispatcherState) (n : Nat) :
    List CLIStateChannelEntry → Nat
  | [] => n
  | e :: rest =>
    inflightAfter (readChannelStep s e).1 (n - completedInStep e + startedInStep s e) rest

/-- Environment-validity of a trace: every completion message is posted
by a previously started, not yet completed `runProjectCommand` worker, so
a completion can only arrive while at least one invocation is in
flight. -/
def validFrom (s : DispatcherState) (n : Nat) :
    List CLIStateChannelEntry → Bool
  | [] => true
  | e :: rest =>
    (e.runProjectReturn.isNone || decide (1 ≤ n)) &&
      validFrom (readChannelStep s e).1 (n - completedInStep e + startedInStep s e) rest

/-- The in-flight count claimed by the `processActive` flag. -/
def flagCount (s : DispatcherState) : Nat :=
  if s.processActive then 1 else 0

/-- Timestamp sanity of one entry processed in state `s`: a successful
completion's `spawnTime` is at least the current watermark (a worker's
wall-clock spawn time is not in the past), and a change event's
project-creation timestamp is nonnegative whenever it can bootstrap the
watermark. -/
def entryTimestampSane (s : DispatcherState) (e : CLIStateChannelEntry) : Bool :=
  match e.runProjectReturn with
  | some rpr => decide (rpr.errorCode ≠ 0) || decide (s.lastTimestamp ≤ rpr.spawnTime)
  | none =>
    decide (s.lastTimestamp ≠ 0) ||
      decide ((0 : Int) ≤ e.projectCreationTimeInAbsoluteMsecsParam)

/-- Timestamp sanity of a whole trace, checked entry by entry in the
state current when each entry is processed. -/
def watermarkSane (s : DispatcherState) :
    List CLIStateChannelEntry → Bool
  | [] => true
  | e :: rest =>
    entryTimestampSane s e && watermarkSane (readChannelStep s e).1 rest

/-- Model of Go's `strings.TrimSpace`: drop whitespace from both ends of
the string. Written structurally on the character list so that it
evaluates inside the kernel. -/
def trimSpace (s : String) : String :=
  ⟨((s.data.dropWhile Char.isWhitespace).reverse.dropWhile Char.isWhitespace).reverse⟩

/-- Error message of `NewCLIState` for an empty installer path
(clistate.go line 54). -/
def installerPathEmptyMsg : String :=
  "Installer path is empty: "

/-- Error message of `OnFileChangeEvent` for an empty project path
(clistate.go line 77). -/
def projectPathEmptyMsg : String :=
  "Project path passed to CLIState is empty, so ignoring file change event."

/-- The fields of the Go `CLIState` struct (clistate.go lines 36-47),
without the channel. -/
structure CLIState where
  projectID : String
  installerPath : String
  projectPath : String
  mockInstallerPath : String
deriving DecidableEq

/-- `NewCLIState` (clistate.go lines 50-69): fails when the installer
path is the empty string, otherwise builds the state (trimming the
`MOCK_CWCTL_INSTALLER_PATH` environment value, passed here as
`mockEnvValue`) and starts the `readChannel` goroutine. -/
def NewCLIState (projectIDParam installerPathParam projectPathParam mockEnvValue : String) :
    Except String CLIState :=
  if installerPathParam = "" then
    Except.error (installerPathEmptyMsg ++ installerPathParam)
  else
    Except.ok
      { projectID := projectIDParam
        installerPath := installerPathParam
        projectPath := projectPathParam
        mockInstallerPath := trimSpace mockEnvValue }

/-- `OnFileChangeEvent` (clistate.go lines 74-86): with a
whitespace-only project path it returns an error and sends nothing;
otherwise it sends `{timestamp, nil, debugPtw}` into the channel and
returns nil. The sent entry (if any) is the `Except.ok` payload. -/
def OnFileChangeEvent (state : CLIState) (projectCreationTimeInAbsoluteMsecsParam : Int)
    (debugPtw : Option ProjectToWatch) : Except String CLIStateChannelEntry :=
  if trimSpace state.projectPath = "" then
    Except.error projectPathEmptyMsg
  else
    Except.ok
      { projectCreationTimeInAbsoluteMsecsParam := projectCreationTimeInAbsoluteMsecsParam
        runProjectReturn := none
        debugPtw := debugPtw }

/-- Outcome of `cmd.CombinedOutput()` as seen by `runProjectCommand`
(clistate.go lines 229-241): no error, an error castable to
`*exec.ExitError` carrying the process's exit code, or some other error
(e.g. failure to spawn) with no exit code available. -/
inductive ExecError where
  | exitError (code : Int)
  | otherError
deriving DecidableEq

/-- Result posting of `runProjectCommand` (clistate.go lines 224-267):
records `spawnTimeInMsecs` immediately before spawning, then posts back
exactly one completion entry: `errorCode` 0 on success, the exit code
when the error is an `*exec.ExitError`, and -1 otherwise; the captured
combined output and the spawn time are carried in all cases. -/
def runProjectCommandPost (spawnTimeInMsecs : Int) (stdoutStderr : String)
    (err : Option ExecError) : CLIStateChannelEntry :=
  match err with
  | some e =>
    let errorCode : Int :=
      match e with
      | ExecError.exitError code => code
      | ExecError.otherError => -1
    { projectCreationTimeInAbsoluteMsecsParam := 0
      runProjectReturn :=
        some { errorCode := errorCode, output := stdoutStderr, spawnTime := spawnTimeInMsecs }
      debugPtw := none }
  | none =>
    { projectCreationTimeInAbsoluteMsecsParam := 0
      runProjectReturn :=
        some { errorCode := 0, output := stdoutStderr, spawnTime := spawnTimeInMsecs }
      debugPtw := none }

/-! ### Helper lemmas -/

theorem maybeStart_lastTimestamp (s : DispatcherState) :
    ((maybeStart s).1).lastTimestamp = s.lastTimestamp := by
  unfold maybeStart
  split <;> rfl

theorem maybeStart_ptw (s : DispatcherState) :
    ((maybeStart s).1).debugMostRecentPtw = s.debugMostRecentPtw := by
  unfold maybeStart
  split <;> rfl

/-! ### Claim theorems -/

/-- C5: a change event carrying timestamp `T ≠ 0` processed while
`lastTimestamp = 0` bootstraps the watermark to `T`, even before any
invocation has run; an event with `T = 0`, or one processed while
`lastTimestamp ≠ 0`, leaves the watermark unchanged by this rule. -/
theorem bootstrap_watermark (s : DispatcherState) (t : Int) (p : Option ProjectToWatch) :
    ((readChannelStep s
        { projectCreationTimeInAbsoluteMsecsParam := t
          runProjectReturn := none, debugPtw := p }).1).lastTimestamp =
      if t ≠ 0 ∧ s.lastTimestamp = 0 then t else s.lastTimestamp := by
  unfold readChannelStep
  rw [maybeStart_lastTimestamp]
  rfl

/-- C8: `OnFileChangeEvent` on a state whose project path trims to empty
returns an error and enqueues nothing; on a nonempty trimmed project path
it enqueues a change entry carrying the given timestamp and snapshot
(with `runProjectReturn = none`) and succeeds. -/
theorem onFileChangeEvent_spec (st : CLIState) (t : Int) (p : Option ProjectToWatch) :
    (trimSpace st.projectPath = "" →
      OnFileChangeEvent st t p = Except.error projectPathEmptyMsg) ∧
    (trimSpace st.projectPath ≠ "" →
      OnFileChangeEvent st t p =
        Except.ok
          { projectCreationTimeInAbsoluteMsecsParam := t
            runProjectReturn := none, debugPtw := p }) := by
  constructor <;> intro h <;> simp [OnFileChangeEvent, h]

/-- Witness for C8 at concrete inputs: a whitespace-only project path is
rejected; the path "/proj" is accepted and the entry is enqueued. -/
theorem onFileChangeEvent_spec_witness :
    OnFileChangeEvent
      { projectID := "p1", installerPath := "cwctl"
        projectPath := " ", mockInstallerPath := "" } 5 none =
      Except.error projectPathEmptyMsg ∧
    OnFileChangeEvent
      { projectID := "p1", installerPath := "cwctl"
        projectPath := "/proj", mockInstallerPath := "" } 5 none =
      Except.ok
        { projectCreationTimeInAbsoluteMsecsParam := 5
          runProjectReturn := none, debugPtw := none } :=
  ⟨(onFileChangeEvent_spec
      { projectID := "p1", installerPath := "cwctl"
        projectPath := " ", mockInstallerPath := "" } 5 none).1 (by decide),
   (onFileChangeEvent_spec
      { projectID := "p1", installerPath := "cwctl"
        projectPath := "/proj", mockInstallerPath := "" } 5 none).2 (by decide)⟩

/-- C9: `runProjectCommand` posts back exactly one completion entry; its
`errorCode` is 0 on success, the process's exit code when the error is an
`*exec.ExitError`, and -1 when no exit code is available; its `output`
is the captured combined output and its `spawnTime` is the time recorded
immediately before spawning. -/
theorem runProjectCommand_result_spec (t : Int) (out : String) (err : Option ExecError) :
    (runProjectCommandPost t out err).runProjectReturn =
      some { errorCode :=
               match err with
               | none => 0
               | some (ExecError.exitError c) => c
               | some ExecError.otherError => -1
             output := out
             spawnTime := t } := by
  cases err with
  | none => rfl
  | some e => cases e <;> rfl

/-- C7 counterexample: a whitespace-only (blank but nonempty) installer
path is accepted by `NewCLIState`, which returns an actor rather than a
configuration error: the code compares the installer path against the
empty string without trimming. -/
theorem newCLIState_blank_accepted :
    NewCLIState "projid" " " "/proj" "" =
      Except.ok
        { projectID := "projid", installerPath := " "
          projectPath := "/proj", mockInstallerPath := "" } := by
  rfl

/-- C7 amended: `NewCLIState` fails with a configuration error exactly
when the installer path is the empty string; for every nonempty installer
path (including whitespace-only ones) it returns the constructed state,
with the mock-installer environment value trimmed. -/
theorem newCLIState_spec (pid ip pp env : String) :
    (ip = "" → NewCLIState pid ip pp env = Except.error (installerPathEmptyMsg ++ ip)) ∧
    (ip ≠ "" → NewCLIState pid ip pp env =
      Except.ok
        { projectID := pid, installerPath := ip
          projectPath := pp, mockInstallerPath := trimSpace env }) := by
  constructor <;> intro h <;> simp [NewCLIState, h]

/-- Witness for C7 at concrete inputs: the empty installer path is
rejected, the path "/usr/bin/cwctl" is accepted. -/
theorem newCLIState_spec_witness :
    NewCLIState "projid" "" "/proj" "" = Except.error (installerPathEmptyMsg ++ "") ∧
    NewCLIState "projid" "/usr/bin/cwctl" "/proj" "" =
      Except.ok
        { projectID := "projid", installerPath := "/usr/bin/cwctl"
          projectPath := "/proj", mockInstallerPath := trimSpace "" } :=
  ⟨(newCLIState_spec "projid" "" "/proj" "").1 rfl,
   (newCLIState_spec "projid" "/usr/bin/cwctl" "/proj" "").2 (by decide)⟩

theorem watermark_step_mono (s : DispatcherState) (e : CLIStateChannelEntry)
    (h : entryTimestampSane s e = true) :
    s.lastTimestamp ≤ ((readChannelStep s e).1).lastTimestamp := by
  unfold readChannelStep
  rw [maybeStart_lastTimestamp]
  cases hrpr : e.runProjectReturn with
  | some rpr =>
    simp only [entryTimestampSane, hrpr, Bool.or_eq_true, decide_eq_true_eq] at h
    simp only [handleMessage, hrpr]
    split
    · rcases h with h | h
      · omega
      · exact h
    · exact le_refl _
  | none =>
    simp only [entryTimestampSane, hrpr, Bool.or_eq_true, decide_eq_true_eq] at h
    simp only [handleMessage, hrpr]
    split
    · rename_i hcond
      rcases h with h | h
      · exact absurd hcond.2 h
      · rw [hcond.2]
        exact h
    · exact le_refl _

theorem watermark_trace_mono :
    ∀ (es : List CLIStateChannelEntry) (s : DispatcherState),
      watermarkSane s es = true →
      s.lastTimestamp ≤ (stepsFrom s es).lastTimestamp
  | [], _, _ => le_refl _
  | e :: rest, s, h => by
    rw [watermarkSane, Bool.and_eq_true] at h
    exact le_trans (watermark_step_mono s e h.1)
      (watermark_trace_mono rest (readChannelStep s e).1 h.2)

theorem step_lastTimestamp_cases (s' : DispatcherState) (e : CLIStateChannelEntry) :
    ((readChannelStep s' e).1).lastTimestamp = s'.lastTimestamp ∨
    (∃ rpr, e.runProjectReturn = some rpr ∧ rpr.errorCode = 0 ∧
      ((readChannelStep s' e).1).lastTimestamp = rpr.spawnTime) ∨
    (e.runProjectReturn = none ∧ e.projectCreationTimeInAbsoluteMsecsParam ≠ 0 ∧
      s'.lastTimestamp = 0 ∧
      ((readChannelStep s' e).1).lastTimestamp =
        e.projectCreationTimeInAbsoluteMsecsParam) := by
  unfold readChannelStep
  rw [maybeStart_lastTimestamp]
  cases hrpr : e.runProjectReturn with
  | some rpr =>
    simp only [handleMessage, hrpr]
    by_cases hc : rpr.errorCode = 0
    · exact Or.inr (Or.inl ⟨rpr, by trivial, hc, by rw [if_pos hc]⟩)
    · exact Or.inl (by rw [if_neg hc])
  | none =>
    simp only [handleMessage, hrpr]
    by_cases hc : e.projectCreationTimeInAbsoluteMsecsParam ≠ 0 ∧ s'.lastTimestamp = 0
    · exact Or.inr (Or.inr ⟨by trivial, hc.1, hc.2, by rw [if_pos hc]⟩)
    · exact Or.inl (by rw [if_neg hc])

/-- C3 corrected, counterexample to the claim as stated: from the initial
state a change event with timestamp 5 sets `lastTimestamp = 5` although no
completion has been processed, and the successful completion of the
invocation it starts, with `spawnTime = 3`, then lowers `lastTimestamp`
from 5 to 3: the watermark both updates outside a successful completion
and decreases. -/
theorem watermark_claim_cex :
    ((readChannelStep initState
        { projectCreationTimeInAbsoluteMsecsParam := 5
          runProjectReturn := none, debugPtw := none }).1).lastTimestamp = 5 ∧
    ((readChannelStep
        (readChannelStep initState
          { projectCreationTimeInAbsoluteMsecsParam := 5
            runProjectReturn := none, debugPtw := none }).1
        { projectCreationTimeInAbsoluteMsecsParam := 0
          runProjectReturn := some { errorCode := 0, output := "", spawnTime := 3 }
          debugPtw := none }).1).lastTimestamp = 3 := by
  decide

/-- C3 amended: along any trace in which every successful completion's
`spawnTime` is at least the watermark current when it is processed and
every bootstrapping change event carries a nonnegative timestamp,
`lastTimestamp` never decreases; and across any single step,
`lastTimestamp` is either unchanged, or set to a successful completion's
`spawnTime`, or bootstrapped to a change event's nonzero timestamp while
it was 0. -/
theorem watermark_monotone (s : DispatcherState) (es : List CLIStateChannelEntry)
    (hsane : watermarkSane s es = true)
    (s' : DispatcherState) (e : CLIStateChannelEntry) :
    s.lastTimestamp ≤ (stepsFrom s es).lastTimestamp ∧
    (((readChannelStep s' e).1).lastTimestamp = s'.lastTimestamp ∨
      (∃ rpr, e.runProjectReturn = some rpr ∧ rpr.errorCode = 0 ∧
        ((readChannelStep s' e).1).lastTimestamp = rpr.spawnTime) ∨
      (e.runProjectReturn = none ∧ e.projectCreationTimeInAbsoluteMsecsParam ≠ 0 ∧
        s'.lastTimestamp = 0 ∧
        ((readChannelStep s' e).1).lastTimestamp =
          e.projectCreationTimeInAbsoluteMsecsParam)) :=
  ⟨watermark_trace_mono es s hsane, step_lastTimestamp_cases s' e⟩

/-- Witness for C3 (amended) on a concrete sane trace: a bootstrap to 5
followed by a successful completion with spawn time 7. -/
theorem watermark_monotone_witness :
    initState.lastTimestamp ≤
      (stepsFrom initState
        [{ projectCreationTimeInAbsoluteMsecsParam := 5
           runProjectReturn := none, debugPtw := none },
         { projectCreationTimeInAbsoluteMsecsParam := 0
           runProjectReturn := some { errorCode := 0, output := "", spawnTime := 7 }
           debugPtw := none }]).lastTimestamp :=
  (watermark_monotone initState
    [{ projectCreationTimeInAbsoluteMsecsParam := 5
       runProjectReturn := none, debugPtw := none },
     { projectCreationTimeInAbsoluteMsecsParam := 0
       runProjectReturn := some { errorCode := 0, output := "", spawnTime := 7 }
       debugPtw := none }] (by decide) initState
    { projectCreationTimeInAbsoluteMsecsParam := 5
      runProjectReturn := none, debugPtw := none }).1

/-- C4 corrected, counterexample to the claim as stated: a failed
completion (`errorCode = 1`) is processed while the watermark is 0; the
completion leaves the watermark at 0, but the subsequent change event
carrying timestamp 7 starts an invocation that is passed 7 — the
bootstrap rule fires — not the unchanged watermark 0. -/
theorem failed_completion_retry_cex :
    ((readChannelStep
        { processWaiting := false, processActive := true
          lastTimestamp := 0, debugMostRecentPtw := none }
        { projectCreationTimeInAbsoluteMsecsParam := 0
          runProjectReturn := some { errorCode := 1, output := "", spawnTime := 99 }
          debugPtw := none }).1).lastTimestamp = 0 ∧
    (readChannelStep
        (readChannelStep
          { processWaiting := false, processActive := true
            lastTimestamp := 0, debugMostRecentPtw := none }
          { projectCreationTimeInAbsoluteMsecsParam := 0
            runProjectReturn := some { errorCode := 1, output := "", spawnTime := 99 }
            debugPtw := none }).1
        { projectCreationTimeInAbsoluteMsecsParam := 7
          runProjectReturn := none, debugPtw := none }).2 =
      some { timestamp := 7, debugPtw := none } := by
  decide

/-- C4 amended: processing a completion with `exitCode ≠ 0` while an
invocation is in flight and no change is queued clears the in-flight
flag, leaves `lastTimestamp` unchanged and starts no invocation by
itself; a subsequent change event starts a new invocation that is passed
the unchanged watermark, except that an event carrying a nonzero
timestamp while the watermark is 0 bootstraps the watermark and the
invocation is passed the event's timestamp instead. -/
theorem failed_completion_retry (s : DispatcherState) (rpr : RunProjectReturn)
    (hcode : rpr.errorCode ≠ 0) (hact : s.processActive = true)
    (hwait : s.processWaiting = false) (t : Int) (p : Option ProjectToWatch) :
    ((readChannelStep s
        { projectCreationTimeInAbsoluteMsecsParam := 0
          runProjectReturn := some rpr, debugPtw := none }).1).processActive = false ∧
    ((readChannelStep s
        { projectCreationTimeInAbsoluteMsecsParam := 0
          runProjectReturn := some rpr, debugPtw := none }).1).lastTimestamp =
      s.lastTimestamp ∧
    (readChannelStep s
        { projectCreationTimeInAbsoluteMsecsParam := 0
          runProjectReturn := some rpr, debugPtw := none }).2 = none ∧
    (readChannelStep
        (readChannelStep s
          { projectCreationTimeInAbsoluteMsecsParam := 0
            runProjectReturn := some rpr, debugPtw := none }).1
        { projectCreationTimeInAbsoluteMsecsParam := t
          runProjectReturn := none, debugPtw := p }).2 =
      some { timestamp := if t ≠ 0 ∧ s.lastTimestamp = 0 then t else s.lastTimestamp
             debugPtw := match p with
                         | some q => some q
                         | none => s.debugMostRecentPtw } := by
  obtain ⟨w, a, l, d⟩ := s
  simp only at hact hwait
  subst hact hwait
  simp [readChannelStep, handleMessage, maybeStart, hcode]

/-- Witness for C4 (amended) at concrete inputs: a failed completion with
spawn time 99 in a state with watermark 4, followed by a change event
with timestamp 0, spawns an invocation passed the unchanged watermark
4. -/
theorem failed_completion_retry_witness :
    ((readChannelStep
        { processWaiting := false, processActive := true
          lastTimestamp := 4, debugMostRecentPtw := none }
        { projectCreationTimeInAbsoluteMsecsParam := 0
          runProjectReturn := some { errorCode := 1, output := "", spawnTime := 99 }
          debugPtw := none }).1).processActive = false ∧
    ((readChannelStep
        { processWaiting := false, processActive := true
          lastTimestamp := 4, debugMostRecentPtw := none }
        { projectCreationTimeInAbsoluteMsecsParam := 0
          runProjectReturn := some { errorCode := 1, output := "", spawnTime := 99 }
          debugPtw := none }).1).lastTimestamp = 4 ∧
    (readChannelStep
        { processWaiting := false, processActive := true
          lastTimestamp := 4, debugMostRecentPtw := none }
        { projectCreationTimeInAbsoluteMsecsParam := 0
          runProjectReturn := some { errorCode := 1, output := "", spawnTime := 99 }
          debugPtw := none }).2 = none ∧
    (readChannelStep
        (readChannelStep
          { processWaiting := false, processActive := true
            lastTimestamp := 4, debugMostRecentPtw := none }
          { projectCreationTimeInAbsoluteMsecsParam := 0
            runProjectReturn := some { errorCode := 1, output := "", spawnTime := 99 }
            debugPtw := none }).1
        { projectCreationTimeInAbsoluteMsecsParam := 0
          runProjectReturn := none, debugPtw := none }).2 =
      some { timestamp := 4, debugPtw := none } :=
  failed_completion_retry
    { processWaiting := false, processActive := true
      lastTimestamp := 4, debugMostRecentPtw := none }
    { errorCode := 1, output := "", spawnTime := 99 }
    (by decide) rfl rfl 0 none

/-- C10: every completion entry posted by `runProjectCommandPost` carries
a zero event timestamp and no snapshot; handling a completion changes
only the in-flight flag and, on success, the watermark — the queued flag
and the retained snapshot are unchanged — and a change queued during a
(possibly failed) invocation still starts the follow-up invocation when
the completion is processed. -/
theorem completion_frame (s : DispatcherState) (t : Int) (out : String)
    (err : Option ExecError) (rpr : RunProjectReturn) :
    (runProjectCommandPost t out err).projectCreationTimeInAbsoluteMsecsParam = 0 ∧
    (runProjectCommandPost t out err).debugPtw = none ∧
    (handleMessage s
        { projectCreationTimeInAbsoluteMsecsParam := 0
          runProjectReturn := some rpr, debugPtw := none }).processWaiting =
      s.processWaiting ∧
    (handleMessage s
        { projectCreationTimeInAbsoluteMsecsParam := 0
          runProjectReturn := some rpr, debugPtw := none }).debugMostRecentPtw =
      s.debugMostRecentPtw ∧
    (handleMessage s
        { projectCreationTimeInAbsoluteMsecsParam := 0
          runProjectReturn := some rpr, debugPtw := none }).processActive = false ∧
    (handleMessage s
        { projectCreationTimeInAbsoluteMsecsParam := 0
          runProjectReturn := some rpr, debugPtw := none }).lastTimestamp =
      (if rpr.errorCode = 0 then rpr.spawnTime else s.lastTimestamp) ∧
    (s.processWaiting = true →
      ((readChannelStep s
          { projectCreationTimeInAbsoluteMsecsParam := 0
            runProjectReturn := some rpr, debugPtw := none }).2).isSome = true) := by
  refine ⟨?_, ?_, rfl, rfl, rfl, rfl, ?_⟩
  · cases err with
    | none => rfl
    | some e => cases e <;> rfl
  · cases err with
    | none => rfl
    | some e => cases e <;> rfl
  · intro h
    simp [readChannelStep, handleMessage, maybeStart, h]

/-- Witness for C10 at concrete inputs: a failed completion processed
while a change is queued starts the follow-up invocation. -/
theorem completion_frame_witness :
    ((readChannelStep
        { processWaiting := true, processActive := true
          lastTimestamp := 4, debugMostRecentPtw := none }
        { projectCreationTimeInAbsoluteMsecsParam := 0
          runProjectReturn := some { errorCode := 1, output := "", spawnTime := 99 }
          debugPtw := none }).2).isSome = true :=
  (completion_frame
    { processWaiting := true, processActive := true
      lastTimestamp := 4, debugMostRecentPtw := none }
    0 "" none { errorCode := 1, output := "", spawnTime := 99 }).2.2.2.2.2.2 rfl

theorem step_change_while_active (s : DispatcherState) (e : CLIStateChannelEntry)
    (hact : s.processActive = true) (hch : e.runProjectReturn = none) :
    (readChannelStep s e).2 = none ∧
    ((readChannelStep s e).1).processActive = true ∧
    ((readChannelStep s e).1).processWaiting = true := by
  have h1 : (handleMessage s e).processActive = true := by
    simp [handleMessage, hch, hact]
  have h2 : (handleMessage s e).processWaiting = true := by
    simp [handleMessage, hch]
  unfold readChannelStep maybeStart
  rw [h1, h2]
  simp [h1, h2]

theorem coalesce_aux :
    ∀ (es : List CLIStateChannelEntry) (s : DispatcherState),
      s.processActive = true →
      (∀ e ∈ es, e.runProjectReturn = none) →
      (runCollect s es).2 = [] ∧
      ((runCollect s es).1).processActive = true ∧
      ((s.processWaiting = true ∨ es ≠ []) → ((runCollect s es).1).processWaiting = true)
  | [], s, hact, _ => by
    refine ⟨rfl, hact, fun h => ?_⟩
    rcases h with h | h
    · exact h
    · exact absurd rfl h
  | e :: rest, s, hact, hch => by
    have hstep := step_change_while_active s e hact (hch e (List.mem_cons_self e rest))
    have ih := coalesce_aux rest (readChannelStep s e).1 hstep.2.1
      (fun x hx => hch x (List.mem_cons_of_mem e hx))
    refine ⟨?_, ih.2.1, fun _ => ih.2.2 (Or.inl hstep.2.2)⟩
    show ((readChannelStep s e).2).toList ++ (runCollect (readChannelStep s e).1 rest).2 = []
    rw [hstep.1, ih.1]
    rfl

theorem step_completion_starts (s : DispatcherState) (rpr : RunProjectReturn)
    (hwait : s.processWaiting = true) :
    (readChannelStep s
        { projectCreationTimeInAbsoluteMsecsParam := 0
          runProjectReturn := some rpr, debugPtw := none }).2 =
      some { timestamp := if rpr.errorCode = 0 then rpr.spawnTime else s.lastTimestamp
             debugPtw := s.debugMostRecentPtw } := by
  simp [readChannelStep, handleMessage, maybeStart, hwait]

/-- C2: any number N ≥ 1 of change events processed while an invocation
is in flight spawn no invocation and collapse into the single
`processWaiting = true` flag; when the in-flight invocation's completion
is then processed, exactly one new invocation starts, passed the
watermark held at that moment (the completion's `spawnTime` if it
succeeded, the existing watermark otherwise) and the retained
snapshot. -/
theorem coalescing (s : DispatcherState) (es : List CLIStateChannelEntry)
    (hact : s.processActive = true) (hne : es ≠ [])
    (hch : ∀ e ∈ es, e.runProjectReturn = none) (rpr : RunProjectReturn) :
    (runCollect s es).2 = [] ∧
    ((runCollect s es).1).processWaiting = true ∧
    ((runCollect s es).1).processActive = true ∧
    (readChannelStep (runCollect s es).1
        { projectCreationTimeInAbsoluteMsecsParam := 0
          runProjectReturn := some rpr, debugPtw := none }).2 =
      some { timestamp := if rpr.errorCode = 0 then rpr.spawnTime
                          else ((runCollect s es).1).lastTimestamp
             debugPtw := ((runCollect s es).1).debugMostRecentPtw } := by
  have aux := coalesce_aux es s hact hch
  have hwait : ((runCollect s es).1).processWaiting = true := aux.2.2 (Or.inr hne)
  exact ⟨aux.1, hwait, aux.2.1, step_completion_starts (runCollect s es).1 rpr hwait⟩

/-- Witness for C2 at concrete inputs: two change events arrive while an
invocation is in flight; no invocation is spawned for them, and the
failed completion that follows starts exactly one invocation passed the
watermark 4. -/
theorem coalescing_witness :
    (runCollect
        { processWaiting := false, processActive := true
          lastTimestamp := 4, debugMostRecentPtw := none }
        [{ projectCreationTimeInAbsoluteMsecsParam := 0
           runProjectReturn := none, debugPtw := none },
         { projectCreationTimeInAbsoluteMsecsParam := 0
           runProjectReturn := none, debugPtw := none }]).2 = [] ∧
    ((runCollect
        { processWaiting := false, processActive := true
          lastTimestamp := 4, debugMostRecentPtw := none }
        [{ projectCreationTimeInAbsoluteMsecsParam := 0
           runProjectReturn := none, debugPtw := none },
         { projectCreationTimeInAbsoluteMsecsParam := 0
           runProjectReturn := none, debugPtw := none }]).1).processWaiting = true ∧
    ((runCollect
        { processWaiting := false, processActive := true
          lastTimestamp := 4, debugMostRecentPtw := none }
        [{ projectCreationTimeInAbsoluteMsecsParam := 0
           runProjectReturn := none, debugPtw := none },
         { projectCreationTimeInAbsoluteMsecsParam := 0
           runProjectReturn := none, debugPtw := none }]).1).processActive = true ∧
    (readChannelStep
        (runCollect
          { processWaiting := false, processActive := true
            lastTimestamp := 4, debugMostRecentPtw := none }
          [{ projectCreationTimeInAbsoluteMsecsParam := 0
             runProjectReturn := none, debugPtw := none },
           { projectCreationTimeInAbsoluteMsecsParam := 0
             runProjectReturn := none, debugPtw := none }]).1
        { projectCreationTimeInAbsoluteMsecsParam := 0
          runProjectReturn := some { errorCode := 1, output := "", spawnTime := 9 }
          debugPtw := none }).2 =
      some { timestamp := if (1 : Int) = 0 then (9 : Int)
                          else ((runCollect
                            { processWaiting := false, processActive := true
                              lastTimestamp := 4, debugMostRecentPtw := none }
                            [{ projectCreationTimeInAbsoluteMsecsParam := 0
                               runProjectReturn := none, debugPtw := none },
                             { projectCreationTimeInAbsoluteMsecsParam := 0
                               runProjectReturn := none, debugPtw := none }]).1).lastTimestamp
             debugPtw := ((runCollect
               { processWaiting := false, processActive := true
                 lastTimestamp := 4, debugMostRecentPtw := none }
               [{ projectCreationTimeInAbsoluteMsecsParam := 0
                  runProjectReturn := none, debugPtw := none },
                { projectCreationTimeInAbsoluteMsecsParam := 0
                  runProjectReturn := none, debugPtw := none }]).1).debugMostRecentPtw } :=
  coalescing
    { processWaiting := false, processActive := true
      lastTimestamp := 4, debugMostRecentPtw := none }
    [{ projectCreationTimeInAbsoluteMsecsParam := 0
       runProjectReturn := none, debugPtw := none },
     { projectCreationTimeInAbsoluteMsecsParam := 0
       runProjectReturn := none, debugPtw := none }]
    rfl (by decide) (by decide) { errorCode := 1, output := "", spawnTime := 9 }

/-- C6: a change event either leaves the queued flag set or is
immediately consumed by an invocation start; from any state with the
queued flag set, a step either keeps it set or spawns an invocation; a
spawned invocation clears the queued flag (consuming the merged events
exactly once); and a completion arriving while the flag is set always
spawns the follow-up invocation — so no accepted event is silently
dropped. -/
theorem no_event_loss (s : DispatcherState) (e : CLIStateChannelEntry) :
    (e.runProjectReturn = none →
      ((readChannelStep s e).1).processWaiting = true ∨
        ((readChannelStep s e).2).isSome = true) ∧
    (s.processWaiting = true →
      ((readChannelStep s e).1).processWaiting = true ∨
        ((readChannelStep s e).2).isSome = true) ∧
    (((readChannelStep s e).2).isSome = true →
      ((readChannelStep s e).1).processWaiting = false) ∧
    (s.processWaiting = true → e.runProjectReturn ≠ none →
      ((readChannelStep s e).2).isSome = true) := by
  obtain ⟨w, a, l, d⟩ := s
  obtain ⟨t, r, p⟩ := e
  cases r <;> cases w <;> cases a <;>
    simp [readChannelStep, handleMessage, maybeStart]

/-- Witness for C6 at concrete inputs: a change event from the initial
state is immediately consumed by a start, and a completion processed
while the queued flag is set spawns the follow-up invocation. -/
theorem no_event_loss_witness :
    (((readChannelStep initState
        { projectCreationTimeInAbsoluteMsecsParam := 5
          runProjectReturn := none, debugPtw := none }).1).processWaiting = true ∨
      ((readChannelStep initState
        { projectCreationTimeInAbsoluteMsecsParam := 5
          runProjectReturn := none, debugPtw := none }).2).isSome = true) ∧
    ((readChannelStep
        { processWaiting := true, processActive := true
          lastTimestamp := 0, debugMostRecentPtw := none }
        { projectCreationTimeInAbsoluteMsecsParam := 0
          runProjectReturn := some { errorCode := 0, output := "", spawnTime := 2 }
          debugPtw := none }).2).isSome = true :=
  ⟨(no_event_loss initState
      { projectCreationTimeInAbsoluteMsecsParam := 5
        runProjectReturn := none, debugPtw := none }).1 rfl,
   (no_event_loss
      { processWaiting := true, processActive := true
        lastTimestamp := 0, debugMostRecentPtw := none }
      { projectCreationTimeInAbsoluteMsecsParam := 0
        runProjectReturn := some { errorCode := 0, output := "", spawnTime := 2 }
        debugPtw := none }).2.2.2 rfl (by decide)⟩

theorem step_flag (s : DispatcherState) (e : CLIStateChannelEntry) (n : Nat)
    (hn : n = flagCount s)
    (hvalid : e.runProjectReturn.isSome = true → 1 ≤ n) :
    n - completedInStep e + startedInStep s e = flagCount (readChannelStep s e).1 := by
  obtain ⟨w, a, l, d⟩ := s
  obtain ⟨t, r, p⟩ := e
  cases r with
  | some rpr =>
    cases a with
    | false =>
      exact absurd (hvalid rfl) (by simp [hn, flagCount])
    | true =>
      subst hn
      cases w <;>
        simp [flagCount, completedInStep, startedInStep,
          readChannelStep, handleMessage, maybeStart]
  | none =>
    subst hn
    cases a <;> cases w <;>
      simp [flagCount, completedInStep, startedInStep,
        readChannelStep, handleMessage, maybeStart]

theorem inflight_eq_flag :
    ∀ (es : List CLIStateChannelEntry) (s : DispatcherState) (n : Nat),
      validFrom s n es = true → n = flagCount s →
      inflightAfter s n es = flagCount (stepsFrom s es)
  | [], s, n, _, hn => by simpa [inflightAfter, stepsFrom] using hn
  | e :: rest, s, n, hv, hn => by
    rw [validFrom, Bool.and_eq_true] at hv
    have hval : e.runProjectReturn.isSome = true → 1 ≤ n := by
      intro h
      have h1 := hv.1
      simp only [Bool.or_eq_true, Option.isNone_iff_eq_none, decide_eq_true_eq] at h1
      rcases h1 with h1 | h1
      · rw [h1] at h
        exact absurd h (by simp)
      · exact h1
    rw [inflightAfter, stepsFrom]
    exact inflight_eq_flag rest (readChannelStep s e).1
      (n - completedInStep e + startedInStep s e) hv.2 (step_flag s e n hn hval)

theorem validFrom_append :
    ∀ (p : List CLIStateChannelEntry) (s : DispatcherState) (n : Nat)
      (q : List CLIStateChannelEntry),
      validFrom s n (p ++ q) =
        (validFrom s n p && validFrom (stepsFrom s p) (inflightAfter s n p) q)
  | [], s, n, q => by simp [validFrom, stepsFrom, inflightAfter]
  | e :: rest, s, n, q => by
    simp only [List.cons_append, validFrom, stepsFrom, inflightAfter, List.append_eq,
      validFrom_append rest, Bool.and_assoc]

/-- C1: along any environment-valid trace (every completion message comes
from a previously started, still-running invocation), the number of
invocations in flight after any point of the trace is at most 1; and an
invocation is only ever started when, after handling the current message,
no invocation is in flight and a change is queued. -/
theorem single_flight (p q : List CLIStateChannelEntry)
    (hvalid : validFrom initState 0 (p ++ q) = true)
    (s : DispatcherState) (e : CLIStateChannelEntry)
    (hstart : ((readChannelStep s e).2).isSome = true) :
    inflightAfter initState 0 p ≤ 1 ∧
    (handleMessage s e).processActive = false ∧
    (handleMessage s e).processWaiting = true := by
  constructor
  · have hp : validFrom initState 0 p = true := by
      rw [validFrom_append, Bool.and_eq_true] at hvalid
      exact hvalid.1
    rw [inflight_eq_flag p initState 0 hp rfl]
    unfold flagCount
    split <;> omega
  · unfold readChannelStep maybeStart at hstart
    split at hstart
    · rename_i hc
      rw [Bool.and_eq_true, Bool.not_eq_true'] at hc
      exact hc
    · exact absurd hstart (by simp)

/-- Witness for C1 on a concrete valid trace: a change event that starts
an invocation followed by its completion; after the first entry exactly
one invocation is in flight. -/
theorem single_flight_witness :
    inflightAfter initState 0
      [{ projectCreationTimeInAbsoluteMsecsParam := 5
         runProjectReturn := none, debugPtw := none }] ≤ 1 ∧
    (handleMessage initState
      { projectCreationTimeInAbsoluteMsecsParam := 5
        runProjectReturn := none, debugPtw := none }).processActive = false ∧
    (handleMessage initState
      { projectCreationTimeInAbsoluteMsecsParam := 5
        runProjectReturn := none, debugPtw := none }).processWaiting = true :=
  single_flight
    [{ projectCreationTimeInAbsoluteMsecsParam := 5
       runProjectReturn := none, debugPtw := none }]
    [{ projectCreationTimeInAbsoluteMsecsParam := 0
       runProjectReturn := some { errorCode := 0, output := "", spawnTime := 7 }
       debugPtw := none }]
    (by decide) initState
    { projectCreationTimeInAbsoluteMsecsParam := 5
      runProjectReturn := none, debugPtw := none }
    (by decide)
